import Mathlib

/-! Verification of the podcast-thumbnail pipeline: a shallow embedding of the
orchestration, caching, cropping and validation logic of the Python sources
(speaker_identification, headshot_generation, thumbnail_composition,
orchestration_cli). Python floats are modelled as exact rationals, byte
strings as lists of naturals, and fallible operations as Except or Option
values. External effects (the remote model, the filesystem, ffmpeg) are
modelled as explicit inputs describing their observable behaviour. -/

namespace PodThumb

/-! Part 1: cropper.py, crop_frame. -/

/-- Default padding fraction of crop_frame (cropper.py line 15). -/
def PADDING : ℚ := 35 / 100

/-- Default min_width of crop_frame (cropper.py line 16). -/
def MIN_WIDTH : ℚ := 35 / 100

/-- Default min_height of crop_frame (cropper.py line 17). -/
def MIN_HEIGHT : ℚ := 1 / 2

/-- A bounding box with normalized coordinates, the bbox dict of cropper.py. -/
structure BBox where
  x1 : ℚ
  y1 : ℚ
  x2 : ℚ
  y2 : ℚ
deriving DecidableEq

/-- The clamp applied at cropper.py lines 34-37: max(0.0, min(1.0, v)). -/
def clamp01 (q : ℚ) : ℚ := max 0 (min 1 q)

/-- Result of the normalization part of crop_frame (cropper.py lines 34-60).
The fields w and h hold the values of the Python variables w, h after lines
55-56: the normalized box dimensions. Those assignments at lines 53-56
SHADOW the pixel dimensions read from img.size at line 32, so w and h are
exactly what line 62 scales the coordinates by. -/
structure NormBox where
  x1 : ℚ
  y1 : ℚ
  x2 : ℚ
  y2 : ℚ
  w : ℚ
  h : ℚ
deriving DecidableEq

/-- Lines 34-60 of cropper.py: clamp the four coordinates into the unit
square, reject degenerate boxes (x2 <= x1 or y2 <= y1), expand outward by
the padding fraction with reclamping, then enforce the minimum width and
height by re-centering symmetrically and reclamping. Returns none for the
degenerate case (the ValueError at line 40). -/
def normalizeBox (padding minWidth minHeight : ℚ) (b : BBox) : Option NormBox :=
  let x1 := clamp01 b.x1
  let y1 := clamp01 b.y1
  let x2 := clamp01 b.x2
  let y2 := clamp01 b.y2
  if x2 ≤ x1 ∨ y2 ≤ y1 then none
  else
    let padX := padding * (x2 - x1)
    let padY := padding * (y2 - y1)
    let px1 := max 0 (x1 - padX)
    let py1 := max 0 (y1 - padY)
    let px2 := min 1 (x2 + padX)
    let py2 := min 1 (y2 + padY)
    let cx := (px1 + px2) / 2
    let cy := (py1 + py2) / 2
    let w := max (px2 - px1) minWidth
    let h := max (py2 - py1) minHeight
    some ⟨max 0 (cx - w / 2), max 0 (cy - h / 2),
          min 1 (cx + w / 2), min 1 (cy + h / 2), w, h⟩

/-- The two ValueError cases of crop_frame: line 40 (invalid bbox) and
line 65 (empty crop). -/
inductive CropError where
  | invalidBbox
  | emptyCrop
deriving DecidableEq

/-- The Python int() conversion at cropper.py line 62. All values converted
there are nonnegative, where truncation toward zero coincides with floor. -/
def pyInt (q : ℚ) : ℤ := ⌊q⌋

/-- Lines 62-65 of cropper.py, applied to the outcome of the normalization
block: on a degenerate bbox, the ValueError of line 40; otherwise the box
of line 62, (int(x1 * w), int(y1 * h), int(x2 * w), int(y2 * h)) where w
and h are the shadowed normalized dimensions, followed by the empty-crop
check of lines 64-65 against the PIL crop size
(right - left, bottom - top). -/
def cropBoxOfNorm : Option NormBox → Except CropError (ℤ × ℤ × ℤ × ℤ)
  | none => .error .invalidBbox
  | some nb =>
    let left := pyInt (nb.x1 * nb.w)
    let top := pyInt (nb.y1 * nb.h)
    let right := pyInt (nb.x2 * nb.w)
    let bottom := pyInt (nb.y2 * nb.h)
    if right - left ≤ 0 ∨ bottom - top ≤ 0 then .error .emptyCrop
    else .ok (left, top, right, bottom)

/-- crop_frame (cropper.py lines 11-71), returning the PIL crop box
(left, top, right, bottom) in pixels, or the error raised. The frame pixel
size imgW, imgH is read into the variables w, h at line 32, but lines 53-56
overwrite those variables with the normalized box size, so the box at
line 62 is scaled by the normalized size; imgW and imgH are therefore
never used afterwards, faithfully to the source. -/
def cropFrame (imgW imgH : ℕ) (padding minWidth minHeight : ℚ) (b : BBox) :
    Except CropError (ℤ × ℤ × ℤ × ℤ) :=
  cropBoxOfNorm (normalizeBox padding minWidth minHeight b)

/-! Part 2: gemini_identify.py, response schema validation (lines 114-115). -/

/-- Parsed structured data as produced by json.loads. -/
inductive JValue where
  | null
  | bool (b : Bool)
  | num (q : ℚ)
  | str (s : String)
  | arr (elems : List JValue)
  | obj (fields : List (String × JValue))

/-- The Python membership test, key in dict, over the parsed object fields. -/
def hasKey (fields : List (String × JValue)) (k : String) : Bool :=
  fields.any fun kv => kv.1 == k

/-- Lines 114-115 of gemini_identify.py: raise GeminiIdentifyError with an
Unexpected response schema message unless the parsed data is a dict
containing the key speakers; otherwise return the data unchanged. -/
def validateResponse (data : JValue) : Except String JValue :=
  match data with
  | .obj fields =>
    if hasKey fields "speakers" then .ok (.obj fields)
    else .error "Unexpected response schema"
  | _ => .error "Unexpected response schema"

/-- The value obtained by parsing the raw text with body speakers mapped to
the string not-a-list, as json.loads produces it. -/
def parsedNotAList : JValue := .obj [("speakers", .str "not-a-list")]

/-! Part 3: frame_sampler.py sample_frames and the frame assignment loop of
pipeline.py lines 121-132. An extracted frame is identified by the enumerate
index and the timestamp encoded in its filename frame_III_TTT.jpg. -/

/-- A speaker frame candidate as far as the assignment zip is concerned:
the requested timestamp. -/
structure Candidate where
  ts : ℚ
deriving DecidableEq

/-- A frame file written by sample_frames: the enumerate index i and the
timestamp ts, both encoded in the filename at frame_sampler.py line 22. -/
structure ExtractedFrame where
  idx : ℕ
  ts : ℚ
deriving DecidableEq

/-- The loop of sample_frames (frame_sampler.py lines 20-41): enumerate the
requested timestamps from a starting index; the predicate ok models whether
the ffmpeg subprocess succeeds at that timestamp; on failure the timestamp
is skipped (the continue at line 40), on success the frame is appended. -/
def sampleFramesAux (ok : ℚ → Bool) : ℕ → List ℚ → List ExtractedFrame
  | _, [] => []
  | i, t :: rest =>
    if ok t then ⟨i, t⟩ :: sampleFramesAux ok (i + 1) rest
    else sampleFramesAux ok (i + 1) rest

/-- sample_frames: returns only the successfully extracted frames, in
request order. -/
def sampleFrames (ok : ℚ → Bool) (timestamps : List ℚ) : List ExtractedFrame :=
  sampleFramesAux ok 0 timestamps

/-- The assignment at pipeline.py line 123: zip(valid_frames, extracted)
pairs the candidates positionally with the returned frame list. -/
def assignFrames (cands : List Candidate) (extracted : List ExtractedFrame) :
    List (Candidate × ExtractedFrame) :=
  cands.zip extracted

/-! Part 4: gemini_client.py generate_headshot retry loop (lines 227-260). -/

/-- The observable content of one generate_content response: the image
artifacts extracted from it, the block reason carried by prompt_feedback if
any, and the diagnostic summary (response id, candidate and part counts)
that the no-images error message is built from. -/
structure GenResponse where
  images : List ℕ
  blockReason : Option String
  diag : String

/-- The failures generate_headshot can raise from the retry loop: the
blocked RuntimeError at line 240 and the no-images RuntimeError built at
lines 251-254. -/
inductive HeadshotFailure where
  | blocked (reason : String)
  | noImages (diag : String)
deriving DecidableEq

/-- The observable behaviour of one run of the retry loop: how many attempts
were issued, the sleep durations in order, and the outcome. -/
structure RetryTrace where
  attempts : ℕ
  sleeps : List ℕ
  result : Except HeadshotFailure (List ℕ)

/-- MAX_RETRIES (gemini_client.py line 32). -/
def MAX_RETRIES : ℕ := 3

/-- RETRY_DELAY_S (gemini_client.py line 33). -/
def RETRY_DELAY_S : ℕ := 2

/-- The retry loop of generate_headshot (lines 230-260): for each attempt
number in turn, issue the call; a block reason raises immediately; a
nonempty image list breaks out with success; otherwise record the
diagnostic failure and, if attempts remain (attempt < MAX_RETRIES), sleep
RETRY_DELAY_S * attempt seconds before the next attempt. After the loop an
empty image list raises the recorded last error (line 260). -/
def runAttempts (call : ℕ → GenResponse) :
    List ℕ → ℕ → List ℕ → Option HeadshotFailure → RetryTrace
  | [], made, sleeps, lastError =>
    ⟨made, sleeps,
     .error (lastError.getD (.noImages "Headshot generation failed after retries"))⟩
  | attempt :: rest, made, sleeps, lastError =>
    let resp := call attempt
    match resp.blockReason with
    | some r => ⟨made + 1, sleeps, .error (.blocked r)⟩
    | none =>
      match resp.images with
      | [] =>
        let e := some (HeadshotFailure.noImages resp.diag)
        let s := if attempt < MAX_RETRIES then sleeps ++ [RETRY_DELAY_S * attempt]
                 else sleeps
        runAttempts call rest (made + 1) s e
      | img :: imgs => ⟨made + 1, sleeps, .ok (img :: imgs)⟩
  termination_by attempts => attempts.length

/-- generate_headshot restricted to its retry behaviour: attempts are
numbered 1 through MAX_RETRIES (range(1, MAX_RETRIES + 1) at line 230). -/
def generateHeadshotRetry (call : ℕ → GenResponse) : RetryTrace :=
  runAttempts call ((List.range MAX_RETRIES).map (fun i => i + 1)) 0 [] none

/-! Part 5: the _cache_key functions of gemini_client.py (lines 65-89) and
gemini_composer.py (lines 51-91). Both feed a sha256 hasher a stream of
bytes: each scalar parameter in a fixed order, then for every input file
its base name followed by its byte content, where a file whose read raises
FileNotFoundError contributes only its base name (the continue after the
update of the name). The digest is a fixed function of that byte stream; we
keep the hash abstract and reason about the stream it is applied to. -/

/-- An input file reference: the utf-8 bytes of its base name, and its byte
content, or none when reading raises FileNotFoundError. -/
structure FileRef where
  name : List ℕ
  contents : Option (List ℕ)
deriving DecidableEq

/-- The bytes one reference contributes to the hasher (gemini_client.py
lines 81-87): the base name always, then the content when readable. -/
def fileChunk (r : FileRef) : List ℕ :=
  r.name ++ (match r.contents with | some bytes => bytes | none => [])

/-- The full byte stream fed to the sha256 hasher by _cache_key: the scalar
parameters in caller order, then every file chunk in order. -/
def cacheKeyTranscript (scalars : List (List ℕ)) (refs : List FileRef) : List ℕ :=
  scalars.flatten ++ (refs.map fileChunk).flatten

/-! Part 6: pipeline.py extract_frames_with_gemini manifest TTL cache
(lines 59-68). -/

/-- TTL_SECONDS (pipeline.py line 59): one day. -/
def TTL_SECONDS : ℕ := 24 * 60 * 60

/-- The cache consultation at pipeline.py lines 62-68: when not in dry-run
and the manifest file exists and its age is at most TTL_SECONDS, return the
parsed manifest; a parse failure falls through (the except-pass at line 68)
to recomputation. The result none means the function proceeds to call
identify_speakers, the remote identification; parse errors are never
propagated. -/
def manifestCacheLookup (dryRun manifestExists : Bool) (age : ℚ)
    (parsed : Except String JValue) : Option JValue :=
  if dryRun = false ∧ manifestExists = true then
    if age ≤ (TTL_SECONDS : ℚ) then
      match parsed with
      | .ok data => some data
      | .error _ => none
    else none
  else none

/-! Part 7: pipeline.py extract_frames_with_gemini per-speaker candidate
filtering and padding (lines 94-119). -/

/-- One entry of a speaker frames list in the manifest: the detected
timestamp_s if present, the bbox if present, and the frame_path and
crop_path set by later stages if present. -/
structure FrameEntry where
  ts : Option ℚ
  bbox : Option BBox
  framePath : Option String
  cropPath : Option String
deriving DecidableEq

/-- The default centered bounding box synthesized at pipeline.py line 114:
x from 0.2 to 0.8, y from 0 to 1. -/
def defaultBBox : BBox := ⟨1 / 5, 0, 4 / 5, 1⟩

/-- A synthesized candidate (pipeline.py lines 111-116): the evenly spaced
timestamp plus the default centered bbox; no frame or crop path yet. -/
def synthFrame (t : ℚ) : FrameEntry := ⟨some t, some defaultBBox, none, none⟩

/-- The filter of pipeline.py lines 96-102: keep a frame entry iff it has a
timestamp and, when the video duration is known, the timestamp is not past
duration - 0.5. -/
def keepFrame (duration : Option ℚ) (f : FrameEntry) : Bool :=
  match f.ts with
  | none => false
  | some t =>
    match duration with
    | none => true
    | some d => if d - 1 / 2 < t then false else true

/-- valid_frames after the filtering loop (pipeline.py lines 95-102). -/
def filterValid (duration : Option ℚ) (frames : List FrameEntry) : List FrameEntry :=
  frames.filter (keepFrame duration)

/-- Python truthiness of the duration value in the guard at line 105:
falsy when None or 0.0. -/
def durationTruthy : Option ℚ → Bool
  | none => false
  | some d => if d = 0 then false else true

/-- The padding loop of pipeline.py lines 107-116: for i in range(n), stop
as soon as the list has reached the requested count, otherwise append a
synthesized candidate at step * (i + 1). -/
def padLoop (n : ℕ) (step : ℚ) : List ℕ → List FrameEntry → List FrameEntry
  | [], acc => acc
  | i :: rest, acc =>
    if n ≤ acc.length then acc
    else padLoop n step rest (acc ++ [synthFrame (step * ((i : ℚ) + 1))])

/-- Lines 104-118: pad the surviving candidates up to the requested count
when the duration is truthy, with step duration / (n + 1), then truncate to
the requested count. -/
def padFrames (n : ℕ) (duration : Option ℚ) (valid : List FrameEntry) :
    List FrameEntry :=
  let needed := n - valid.length
  let padded :=
    if needed ≠ 0 ∧ durationTruthy duration = true then
      match duration with
      | some d => padLoop n (d / ((n : ℚ) + 1)) (List.range n) valid
      | none => valid
    else valid
  padded.take n

/-- The candidate list a speaker holds after lines 94-119: filter against
the duration, then pad. -/
def candidateList (n : ℕ) (duration : Option ℚ) (frames : List FrameEntry) :
    List FrameEntry :=
  padFrames n duration (filterValid duration frames)

/-! Part 8: pipeline.py run_end_to_end per-speaker headshot step
(lines 243-280). -/

/-- The observable outcome of the headshot step for one speaker. -/
inductive HeadshotOutcome where
  | existing (path : String)
  | generated (shots : List String)
  | skippedNoRefs
  | failedNoImages
deriving DecidableEq

/-- The reference selection loop of pipeline.py lines 257-264: walk the
frame entries, stop at 3 references, prefer the crop path and fall back to
the frame path, skipping entries with neither. -/
def buildRefsAux : List FrameEntry → List String → List String
  | [], acc => acc
  | f :: rest, acc =>
    if 3 ≤ acc.length then acc
    else
      match f.cropPath with
      | some c => buildRefsAux rest (acc ++ [c])
      | none =>
        match f.framePath with
        | some p => buildRefsAux rest (acc ++ [p])
        | none => buildRefsAux rest acc

/-- The references selected for a speaker. -/
def buildRefs (frames : List FrameEntry) : List String := buildRefsAux frames []

/-- The per-speaker headshot step of run_end_to_end (lines 243-280).
headshotExists models existing_headshot.exists() for the canonical file
headshot.png under the speaker output directory (line 246); gen models the
generate_headshot call, returning the saved shot paths. When the canonical
file exists the step returns it at once (lines 249-252) without consulting
the manifest entry or invoking gen. -/
def headshotStep (headshotExists : Bool) (outDir : String)
    (frames : List FrameEntry) (gen : List String → List String) :
    HeadshotOutcome :=
  if headshotExists = true then .existing (outDir ++ "/headshot.png")
  else
    match buildRefs frames with
    | [] => .skippedNoRefs
    | r :: rs =>
      match gen (r :: rs) with
      | [] => .failedNoImages
      | s :: ss => .generated (s :: ss)

/-! Theorems. -/

/-- C1: the claim states that for every valid normalized bbox and positive
frame size, crop_frame yields a rectangle of nonzero area inside the frame,
and that the degenerate bbox (0.5, 0.5, 0.5, 0.5) raises the
invalid-geometry error. The degenerate half holds, but the main half is
violated by the code: lines 53-54 of cropper.py overwrite the pixel size
variables w, h with the normalized box size, so line 62 scales the
normalized coordinates by the normalized size instead of the frame size.
On the valid bbox (0.2, 0.2, 0.4, 0.4) over a 100 x 100 frame the pixel box
degenerates to zero area and crop_frame raises the empty-crop error instead
of returning a rectangle with 0 <= left < right <= 100. -/
theorem C1_crop_scaling_code_bug :
    cropFrame 100 100 PADDING MIN_WIDTH MIN_HEIGHT ⟨1 / 2, 1 / 2, 1 / 2, 1 / 2⟩ =
      .error CropError.invalidBbox ∧
    cropFrame 100 100 PADDING MIN_WIDTH MIN_HEIGHT ⟨1 / 5, 1 / 5, 2 / 5, 2 / 5⟩ =
      .error CropError.emptyCrop := by
  have h1 : normalizeBox PADDING MIN_WIDTH MIN_HEIGHT ⟨1 / 2, 1 / 2, 1 / 2, 1 / 2⟩ =
      none := by
    norm_num [normalizeBox, clamp01, PADDING, MIN_WIDTH, MIN_HEIGHT]
  have h2 : normalizeBox PADDING MIN_WIDTH MIN_HEIGHT ⟨1 / 5, 1 / 5, 2 / 5, 2 / 5⟩ =
      some ⟨1 / 8, 1 / 20, 19 / 40, 11 / 20, 7 / 20, 1 / 2⟩ := by
    norm_num [normalizeBox, clamp01, PADDING, MIN_WIDTH, MIN_HEIGHT]
  constructor
  · simp only [cropFrame, h1, cropBoxOfNorm]
  · simp only [cropFrame, h2, cropBoxOfNorm]
    norm_num [pyInt]

/-- C2 counterexample: the claim states that for every non-degenerate bbox
the crop spans the full frame height regardless of y1 and y2. For the
non-degenerate bbox (0.3, 0.4, 0.6, 0.5) crop_frame raises the empty-crop
error, so it produces no full-height rectangle at all; moreover the final
normalized vertical span computed at lines 45-60, the one scaled into
pixels at line 62, is (0.2, 0.7), not (0, 1). -/
theorem C2_full_height_counterexample :
    cropFrame 100 100 PADDING MIN_WIDTH MIN_HEIGHT ⟨3 / 10, 2 / 5, 3 / 5, 1 / 2⟩ =
      .error CropError.emptyCrop ∧
    (normalizeBox PADDING MIN_WIDTH MIN_HEIGHT ⟨3 / 10, 2 / 5, 3 / 5, 1 / 2⟩).map
      (fun nb => (nb.y1, nb.y2)) = some (1 / 5, 7 / 10) ∧
    ¬ (((1 : ℚ) / 5, (7 : ℚ) / 10) = ((0 : ℚ), (1 : ℚ))) := by
  have h : normalizeBox PADDING MIN_WIDTH MIN_HEIGHT ⟨3 / 10, 2 / 5, 3 / 5, 1 / 2⟩ =
      some ⟨39 / 200, 1 / 5, 141 / 200, 7 / 10, 51 / 100, 1 / 2⟩ := by
    norm_num [normalizeBox, clamp01, PADDING, MIN_WIDTH, MIN_HEIGHT]
  refine ⟨?_, ?_, by norm_num⟩
  · simp only [cropFrame, h, cropBoxOfNorm]
    norm_num [pyInt]
  · simp only [h, Option.map_some]
    norm_num

/-- C2 amended: crop_frame does not ignore the model vertical extent. The
normalized vertical span is computed from y1 and y2 by 35 percent padding,
a minimum height of half the frame, re-centering and clamping: the bbox
(0.3, 0.4, 0.6, 0.5) yields the span (0.2, 0.7), a proper sub-interval of
the frame, and the bbox (0.3, 0.1, 0.6, 0.2), which differs only in y1 and
y2, yields the different span (0, 0.4). -/
theorem C2_vertical_extent_used :
    (normalizeBox PADDING MIN_WIDTH MIN_HEIGHT ⟨3 / 10, 2 / 5, 3 / 5, 1 / 2⟩).map
      (fun nb => (nb.y1, nb.y2)) = some (1 / 5, 7 / 10) ∧
    (normalizeBox PADDING MIN_WIDTH MIN_HEIGHT ⟨3 / 10, 1 / 10, 3 / 5, 1 / 5⟩).map
      (fun nb => (nb.y1, nb.y2)) = some (0, 2 / 5) ∧
    ¬ (((1 : ℚ) / 5, (7 : ℚ) / 10) = ((0 : ℚ), (2 : ℚ) / 5)) ∧
    ¬ (((1 : ℚ) / 5, (7 : ℚ) / 10) = ((0 : ℚ), (1 : ℚ))) := by
  refine ⟨?_, ?_, by norm_num, by norm_num⟩ <;>
    norm_num [normalizeBox, clamp01, PADDING, MIN_WIDTH, MIN_HEIGHT]

/-- C3 counterexample: the claim states that the parsed value of the raw
text mapping speakers to the string not-a-list fails validation with a
schema error. In fact lines 114-115 of gemini_identify.py only check that
the parsed data is a dict containing the key speakers, so this value passes
validation and the mapping is returned unchanged. -/
theorem C3_schema_counterexample :
    validateResponse parsedNotAList = .ok parsedNotAList := rfl

/-- C3 amended: the validator rejects exactly the parsed results that are
not mappings or lack a speakers key; the type of the speakers value is
never inspected, so a mapping whose speakers value is any value at all,
including a string, is returned unchanged. -/
theorem C3_schema_shape_only (fields : List (String × JValue)) (v : JValue) :
    validateResponse (JValue.obj (("speakers", v) :: fields)) =
      .ok (JValue.obj (("speakers", v) :: fields)) ∧
    validateResponse JValue.null = .error "Unexpected response schema" ∧
    validateResponse (JValue.arr [v]) = .error "Unexpected response schema" ∧
    (hasKey fields "speakers" = false →
      validateResponse (JValue.obj fields) = .error "Unexpected response schema") := by
  refine ⟨by simp [validateResponse, hasKey], rfl, rfl, fun h => ?_⟩
  simp [validateResponse, h]

/-- C3 witness: the amended statement instantiated at the parsed
counterexample value and one extra field. -/
theorem C3_schema_shape_only_witness :
    validateResponse (JValue.obj [("speakers", JValue.str "not-a-list")]) =
      .ok (JValue.obj [("speakers", JValue.str "not-a-list")]) ∧
    validateResponse JValue.null = .error "Unexpected response schema" ∧
    validateResponse (JValue.arr [JValue.str "not-a-list"]) =
      .error "Unexpected response schema" ∧
    (hasKey [] "speakers" = false →
      validateResponse (JValue.obj []) = .error "Unexpected response schema") :=
  C3_schema_shape_only [] (JValue.str "not-a-list")

/-- When every requested timestamp extracts successfully, zipping the
candidates against the returned frames pairs each candidate with the frame
extracted at its own timestamp and request index, for any starting index. -/
theorem sampleFramesAux_zip_all_ok (ok : ℚ → Bool) (cands : List Candidate) :
    ∀ i : ℕ, (∀ c ∈ cands, ok c.ts = true) →
      cands.zip (sampleFramesAux ok i (cands.map Candidate.ts)) =
        (List.enumFrom i cands).map (fun p => (p.2, ⟨p.1, p.2.ts⟩)) := by
  induction cands with
  | nil => intro i _; rfl
  | cons c cs ih =>
    intro i h
    have hc : ok c.ts = true := h c (by simp)
    have htail := ih (i + 1) (fun x hx => h x (by simp [hx]))
    simp [sampleFramesAux, hc, List.enumFrom, htail]

/-- The ffmpeg success pattern of the C4 counterexample: extraction fails
exactly at timestamp 10. -/
def dropAtTen (t : ℚ) : Bool := if t = 10 then false else true

/-- C4 counterexample: the claim states that zipping positionally against
the returned list means no candidate is ever assigned a frame extracted at
a different candidate timestamp. With candidates at timestamps 10 and 20
and extraction failing at 10, the returned list is just the frame extracted
at 20 (with request index 1), and the positional zip assigns it to the
candidate whose timestamp is 10. -/
theorem C4_misalignment_counterexample :
    assignFrames [⟨10⟩, ⟨20⟩] (sampleFrames dropAtTen [10, 20]) =
      [(⟨10⟩, ⟨1, 20⟩)] ∧
    (10 : ℚ) ≠ 20 := by
  constructor
  · norm_num [assignFrames, sampleFrames, sampleFramesAux, dropAtTen]
  · norm_num

/-- C4 amended: extracted frame paths are assigned by zipping the candidate
list positionally against the returned list. When every requested timestamp
is successfully extracted, this pairs each candidate with the frame
extracted at its own timestamp; but when extraction drops a timestamp, the
positional zip can assign a candidate a frame extracted at a different
candidate timestamp, as the counterexample shows. -/
theorem C4_zip_alignment (ok : ℚ → Bool) (cands : List Candidate)
    (hall : cands.all (fun c => ok c.ts) = true) :
    assignFrames cands (sampleFrames ok (cands.map Candidate.ts)) =
      (List.enumFrom 0 cands).map (fun p => (p.2, ⟨p.1, p.2.ts⟩)) := by
  have h := List.all_eq_true.mp hall
  exact sampleFramesAux_zip_all_ok ok cands 0 h

/-- C4 witness: the alignment statement at two concrete candidates with an
always-successful extraction. -/
theorem C4_zip_alignment_witness :
    (([⟨10⟩, ⟨20⟩] : List Candidate).all (fun c => (fun _ => true) c.ts)) = true ∧
    assignFrames [⟨10⟩, ⟨20⟩] (sampleFrames (fun _ => true)
        (([⟨10⟩, ⟨20⟩] : List Candidate).map Candidate.ts)) =
      (List.enumFrom 0 ([⟨10⟩, ⟨20⟩] : List Candidate)).map
        (fun p => (p.2, ⟨p.1, p.2.ts⟩)) :=
  ⟨rfl, C4_zip_alignment (fun _ => true) [⟨10⟩, ⟨20⟩] rfl⟩

/-- C5: with every attempt block-free and artifact-free, the retry loop
issues exactly MAX_RETRIES = 3 attempts, sleeps RETRY_DELAY_S * 1 then
RETRY_DELAY_S * 2 seconds between consecutive attempts (linear in the
attempt number, strictly increasing), and raises the diagnostic failure
built from the last attempt unchanged; an attempt that yields artifacts
stops the loop at once with those artifacts. -/
theorem C5_retry_exhaustion (call : ℕ → GenResponse)
    (hb1 : (call 1).blockReason = none)
    (hb2 : (call 2).blockReason = none)
    (hb3 : (call 3).blockReason = none) :
    ((call 1).images = [] → (call 2).images = [] → (call 3).images = [] →
      generateHeadshotRetry call =
        ⟨3, [RETRY_DELAY_S * 1, RETRY_DELAY_S * 2],
         .error (.noImages (call 3).diag)⟩) ∧
    RETRY_DELAY_S * 1 < RETRY_DELAY_S * 2 ∧
    ((call 1).images ≠ [] →
      generateHeadshotRetry call = ⟨1, [], .ok (call 1).images⟩) ∧
    ((call 1).images = [] → (call 2).images ≠ [] →
      generateHeadshotRetry call = ⟨2, [RETRY_DELAY_S * 1], .ok (call 2).images⟩) := by
  have hsteps : (List.range MAX_RETRIES).map (fun i => i + 1) = [1, 2, 3] := rfl
  refine ⟨?_, by norm_num [RETRY_DELAY_S], ?_, ?_⟩
  · intro h1 h2 h3
    simp only [generateHeadshotRetry, hsteps]
    simp [runAttempts, hb1, hb2, hb3, h1, h2, h3, MAX_RETRIES, RETRY_DELAY_S]
  · intro h1
    rcases hx : (call 1).images with _ | ⟨a, as⟩
    · exact absurd hx h1
    · simp only [generateHeadshotRetry, hsteps]
      simp [runAttempts, hb1, hx, MAX_RETRIES, RETRY_DELAY_S]
  · intro h1 h2
    rcases hx : (call 2).images with _ | ⟨a, as⟩
    · exact absurd hx h2
    · simp only [generateHeadshotRetry, hsteps]
      simp [runAttempts, hb1, hb2, h1, hx, MAX_RETRIES, RETRY_DELAY_S]

/-- The stub call of the C5 witness: never blocked, never any artifact. -/
def emptyCall : ℕ → GenResponse := fun a => ⟨[], none, toString a⟩

/-- C5 witness: the exhaustion statement at the concrete stub. -/
theorem C5_retry_exhaustion_witness :
    (emptyCall 1).blockReason = none ∧
    generateHeadshotRetry emptyCall =
      ⟨3, [RETRY_DELAY_S * 1, RETRY_DELAY_S * 2],
       .error (.noImages (emptyCall 3).diag)⟩ :=
  ⟨rfl, (C5_retry_exhaustion emptyCall rfl rfl rfl).1 rfl rfl rfl⟩

/-- Cancelling a shared prefix and a shared suffix around equal-length
middles of equal concatenations. -/
theorem middle_eq_of_append_eq (A B x y : List ℕ) (hlen : x.length = y.length)
    (h : A ++ (x ++ B) = A ++ (y ++ B)) : x = y := by
  have h2 : x ++ B = y ++ B := List.append_cancel_left h
  exact (List.append_inj h2 hlen).1

/-- Concatenations around middles of different lengths are different. -/
theorem middle_ne_of_length_ne (A B x y : List ℕ) (hl : x.length ≠ y.length) :
    A ++ (x ++ B) ≠ A ++ (y ++ B) := by
  intro h
  apply hl
  have h3 := congrArg List.length h
  simp [List.length_append] at h3
  omega

/-- The hasher stream around one distinguished file reference splits into
the bytes before it, its own chunk, and the bytes after it. -/
theorem cacheKeyTranscript_decomp (scalars : List (List ℕ)) (pre post : List FileRef)
    (r : FileRef) :
    cacheKeyTranscript scalars (pre ++ r :: post) =
      (scalars.flatten ++ (pre.map fileChunk).flatten) ++
        (fileChunk r ++ (post.map fileChunk).flatten) := by
  simp [cacheKeyTranscript, List.map_append, List.flatten_append, List.append_assoc]

/-- Changing only the name of the distinguished file changes the stream,
whether or not the two names have equal length. -/
theorem chunk_name_ne (A B nm nm2 c : List ℕ) (hnm : nm ≠ nm2) :
    A ++ ((nm ++ c) ++ B) ≠ A ++ ((nm2 ++ c) ++ B) := by
  by_cases hl : nm.length = nm2.length
  · intro h
    have hx : (nm ++ c).length = (nm2 ++ c).length := by simp [hl]
    have h4 := middle_eq_of_append_eq A B _ _ hx h
    exact hnm (List.append_inj h4 hl).1
  · exact middle_ne_of_length_ne A B _ _ (by simp [List.length_append]; omega)

/-- C6: the cache key digest is a fixed function of the scalar parameters
and the named file contents, so identical invocations give identical
digests; and for any injective model of the sha256 digest function,
changing a single byte of one input file (same length, different content)
or changing the base name of one input file changes the digest. The hash
itself is kept abstract: the construction of the hasher input stream is
what the source defines, and the injectivity hypothesis models
collision-freeness of sha256. -/
theorem C6_cache_key_sensitivity (hash : List ℕ → List ℕ)
    (hinj : Function.Injective hash) (scalars : List (List ℕ))
    (pre post : List FileRef) (nm nm2 c c2 : List ℕ)
    (hc : c ≠ c2) (hlen : c.length = c2.length) (hnm : nm ≠ nm2) :
    hash (cacheKeyTranscript scalars (pre ++ ⟨nm, some c⟩ :: post)) =
      hash (cacheKeyTranscript scalars (pre ++ ⟨nm, some c⟩ :: post)) ∧
    hash (cacheKeyTranscript scalars (pre ++ ⟨nm, some c⟩ :: post)) ≠
      hash (cacheKeyTranscript scalars (pre ++ ⟨nm, some c2⟩ :: post)) ∧
    hash (cacheKeyTranscript scalars (pre ++ ⟨nm, some c⟩ :: post)) ≠
      hash (cacheKeyTranscript scalars (pre ++ ⟨nm2, some c⟩ :: post)) := by
  refine ⟨rfl, ?_, ?_⟩
  · intro h
    have ht := hinj h
    rw [cacheKeyTranscript_decomp, cacheKeyTranscript_decomp] at ht
    simp only [fileChunk] at ht
    have h4 := middle_eq_of_append_eq _ _ _ _ (by simp [hlen]) ht
    exact hc (List.append_cancel_left h4)
  · intro h
    have ht := hinj h
    rw [cacheKeyTranscript_decomp, cacheKeyTranscript_decomp] at ht
    simp only [fileChunk] at ht
    exact chunk_name_ne _ _ nm nm2 c hnm ht

/-- C6 witness: the sensitivity statement at the identity hash (injective)
and concrete one-byte names and contents. -/
theorem C6_cache_key_sensitivity_witness :
    Function.Injective (fun l : List ℕ => l) ∧
    ([2] : List ℕ) ≠ [3] ∧ ([2] : List ℕ).length = ([3] : List ℕ).length ∧
    ([0] : List ℕ) ≠ [1] ∧
    ((fun l : List ℕ => l)
        (cacheKeyTranscript [[5]] ([] ++ ⟨[0], some [2]⟩ :: [])) =
      (fun l : List ℕ => l)
        (cacheKeyTranscript [[5]] ([] ++ ⟨[0], some [2]⟩ :: [])) ∧
     (fun l : List ℕ => l)
        (cacheKeyTranscript [[5]] ([] ++ ⟨[0], some [2]⟩ :: [])) ≠
      (fun l : List ℕ => l)
        (cacheKeyTranscript [[5]] ([] ++ ⟨[0], some [3]⟩ :: [])) ∧
     (fun l : List ℕ => l)
        (cacheKeyTranscript [[5]] ([] ++ ⟨[0], some [2]⟩ :: [])) ≠
      (fun l : List ℕ => l)
        (cacheKeyTranscript [[5]] ([] ++ ⟨[1], some [2]⟩ :: []))) :=
  ⟨fun a b hab => hab, by decide, by decide, by decide,
   C6_cache_key_sensitivity (fun l => l) (fun a b hab => hab) [[5]] [] []
     [0] [1] [2] [3] (by decide) (by decide) (by decide)⟩

/-- C10: a missing input file still contributes its base name to the hasher
stream (the name update precedes the read that raises FileNotFoundError,
whose handler merely continues), so with any injective model of the digest
function, including the missing reference yields a different digest from
omitting it, with both computations total. A nonexistent path always has a
nonempty base name, hence the hypothesis on nm. -/
theorem C10_missing_file_name_hashed (hash : List ℕ → List ℕ)
    (hinj : Function.Injective hash) (scalars : List (List ℕ))
    (pre post : List FileRef) (nm : List ℕ) (hnm : nm ≠ []) :
    fileChunk ⟨nm, none⟩ = nm ∧
    hash (cacheKeyTranscript scalars (pre ++ ⟨nm, none⟩ :: post)) ≠
      hash (cacheKeyTranscript scalars (pre ++ post)) := by
  refine ⟨by simp [fileChunk], ?_⟩
  intro h
  have ht := hinj h
  have h3 := congrArg List.length ht
  rw [cacheKeyTranscript_decomp] at h3
  simp only [fileChunk] at h3
  simp [cacheKeyTranscript, List.map_append, List.flatten_append,
    List.length_append] at h3
  exact hnm h3

/-- C10 witness: the missing-file statement at the identity hash with a
concrete one-byte name, one other file present and one scalar. -/
theorem C10_missing_file_name_hashed_witness :
    Function.Injective (fun l : List ℕ => l) ∧ ([7] : List ℕ) ≠ [] ∧
    (fileChunk ⟨[7], none⟩ = [7] ∧
     (fun l : List ℕ => l)
        (cacheKeyTranscript [[1]] ([] ++ ⟨[7], none⟩ :: [⟨[8], some [9]⟩])) ≠
      (fun l : List ℕ => l)
        (cacheKeyTranscript [[1]] ([] ++ [⟨[8], some [9]⟩]))) :=
  ⟨fun a b hab => hab, by decide,
   C10_missing_file_name_hashed (fun l => l) (fun a b hab => hab) [[1]] []
     [⟨[8], some [9]⟩] [7] (by decide)⟩

/-- C7: for a non-dry run, the IDENTIFY stage returns the cached manifest
without the remote call exactly when the manifest file exists, its age is
at most TTL_SECONDS (24 hours), and its contents parse; and a parse failure
of the cached manifest yields a cache miss (recomputation), never a
surfaced error. -/
theorem C7_manifest_ttl_cache (manifestExists : Bool) (age : ℚ)
    (parsed : Except String JValue) (m : JValue) (e : String) :
    (manifestCacheLookup false manifestExists age parsed = some m ↔
      manifestExists = true ∧ age ≤ (TTL_SECONDS : ℚ) ∧ parsed = .ok m) ∧
    (parsed = .error e → manifestCacheLookup false manifestExists age parsed = none) := by
  constructor
  · cases manifestExists with
    | false => simp [manifestCacheLookup]
    | true =>
      by_cases hage : age ≤ (TTL_SECONDS : ℚ)
      · cases parsed with
        | ok d => simp [manifestCacheLookup, hage]
        | error s => simp [manifestCacheLookup, hage]
      · simp [manifestCacheLookup, hage]
  · intro hpe
    subst hpe
    cases manifestExists <;> by_cases hage : age ≤ (TTL_SECONDS : ℚ) <;>
      simp [manifestCacheLookup, hage]

/-- C7 witness: the cache characterization at a fresh, existing, parsable
manifest. -/
theorem C7_manifest_ttl_cache_witness :
    (manifestCacheLookup false true 100 (.ok (JValue.obj [])) =
        some (JValue.obj []) ↔
      true = true ∧ (100 : ℚ) ≤ (TTL_SECONDS : ℚ) ∧
        (Except.ok (JValue.obj []) : Except String JValue) = .ok (JValue.obj [])) ∧
    ((Except.ok (JValue.obj []) : Except String JValue) = .error "bad" →
      manifestCacheLookup false true 100 (.ok (JValue.obj [])) = none) :=
  C7_manifest_ttl_cache true 100 (.ok (JValue.obj [])) (JValue.obj []) "bad"

/-- C9: when the canonical headshot file of a speaker exists before the
run, the step returns that path and the generation function is never
consulted: the outcome is the same for every manifest frame entry list and
every generation behaviour. -/
theorem C9_headshot_resume (outDir : String) (frames frames2 : List FrameEntry)
    (gen gen2 : List String → List String) :
    headshotStep true outDir frames gen = .existing (outDir ++ "/headshot.png") ∧
    headshotStep true outDir frames gen = headshotStep true outDir frames2 gen2 :=
  ⟨rfl, rfl⟩

/-- C8: with 4 requested timestamps, a known 100 second duration and
exactly one frame entry surviving the duration filter, the candidate list
afterwards is exactly that survivor followed by three synthesized
candidates at the evenly spaced timestamps 20, 40 and 60 seconds
(step 100 / 5), each carrying the default centered bounding box; four
candidates in total. -/
theorem C8_padding_synthesis (frames : List FrameEntry) (f : FrameEntry)
    (hf : filterValid (some 100) frames = [f]) :
    candidateList 4 (some 100) frames =
      [f, synthFrame 20, synthFrame 40, synthFrame 60] ∧
    synthFrame 20 = ⟨some 20, some defaultBBox, none, none⟩ ∧
    (candidateList 4 (some 100) frames).length = 4 := by
  have hloop : padLoop 4 20 [0, 1, 2, 3] [f] =
      [f, synthFrame 20, synthFrame 40, synthFrame 60] := by
    simp only [padLoop]
    norm_num
  have hmain : candidateList 4 (some 100) frames =
      [f, synthFrame 20, synthFrame 40, synthFrame 60] := by
    simp only [candidateList, hf, padFrames]
    norm_num [durationTruthy]
    rw [show List.range 4 = [0, 1, 2, 3] from rfl, hloop]
    rfl
  exact ⟨hmain, rfl, by rw [hmain]; rfl⟩

/-- The concrete manifest frames of the C8 witness: one in-range detection
at 10 seconds, one detection past the 99.5 second cutoff, one entry with no
timestamp. -/
def demoFrames : List FrameEntry :=
  [⟨some 10, some defaultBBox, none, none⟩,
   ⟨some 999, none, none, none⟩,
   ⟨none, none, none, none⟩]

/-- C8 witness: the padding statement at the concrete frame list whose
filtered form keeps exactly the detection at 10 seconds. -/
theorem C8_padding_synthesis_witness :
    filterValid (some 100) demoFrames = [⟨some 10, some defaultBBox, none, none⟩] ∧
    (candidateList 4 (some 100) demoFrames =
      [⟨some 10, some defaultBBox, none, none⟩,
       synthFrame 20, synthFrame 40, synthFrame 60] ∧
     synthFrame 20 = ⟨some 20, some defaultBBox, none, none⟩ ∧
     (candidateList 4 (some 100) demoFrames).length = 4) :=
  ⟨by norm_num [filterValid, demoFrames, keepFrame, List.filter],
   C8_padding_synthesis demoFrames ⟨some 10, some defaultBBox, none, none⟩
     (by norm_num [filterValid, demoFrames, keepFrame, List.filter])⟩

end PodThumb
